import Mathlib

/-!
Shallow embedding of the fuel-core block data model, the block producer
validation pipeline, the PoA scheduler task and the client pagination
argument conversion, with theorems settling the specification claims.
-/

namespace FuelCore

/-! ## Block data model (src/crates/types/src/blockchain/block.rs)

`Block<TransactionRepresentation>` is a header plus a transaction list,
generic over the transaction representation (full `Transaction` or `TxId`).
The header type and the functions `PartialBlockHeader::generate` and
`Transaction::id` live in other crates, so here they are type/function
parameters of the operations that use them. -/

/-- Fuel block with all transaction data included: a generated complete
header and the executed transactions, generic over the transaction
representation (mirrors `struct Block<TransactionRepresentation>`). -/
structure Block (H Tx : Type) where
  header : H
  transactions : List Tx
deriving Repr

/-- Mirrors `Block::new(header, transactions, message_ids)`: the stored
header is `header.generate(&transactions, message_ids)` and the stored
transactions are exactly the given list. `generate` is the (external)
header generation function. -/
def Block.new {H PH Tx MsgId : Type} (generate : PH → List Tx → List MsgId → H)
    (header : PH) (transactions : List Tx) (message_ids : List MsgId) :
    Block H Tx :=
  { header := generate header transactions message_ids, transactions }

/-- Mirrors `Block::compress(&self, params)`: keeps the header and replaces
each transaction by its identifier `tx.id(params)`. -/
def Block.compress {H Tx TxId Params : Type} (tx_id : Params → Tx → TxId)
    (params : Params) (b : Block H Tx) : Block H TxId :=
  { header := b.header
    transactions := b.transactions.map (fun tx => tx_id params tx) }

/-- Mirrors `CompressedBlock::uncompress(self, transactions)`: keeps the
header of the compressed block and adopts the supplied transaction list
verbatim, with no validation against the stored transaction ids. -/
def CompressedBlock.uncompress {H Tx TxId : Type} (c : Block H TxId)
    (transactions : List Tx) : Block H Tx :=
  { header := c.header, transactions := transactions }

/-! ## Block header model

Modelled from the spec: `BlockHeader`, `PartialBlockHeader` and their
`generate`, `id` and `hash` functions live in
`crates/types/src/blockchain/header.rs`, which is not under `src/`.
Per spec §3: a partial header carries only height, previous root, DA height
and timestamp; a full header additionally carries post-execution data, and
"a full header's identifier is a pure hash of its contents — never mutated
after construction". The identifier is computed once at generation time and
stored (`metadata_id`), while `hash` recomputes it from the contents. -/

/-- Modelled from the spec: the pre-execution header fields (height,
previous root, DA height, timestamp) of `PartialBlockHeader`. -/
structure PartialBlockHeader where
  da_height : Nat
  height : Nat
  prev_root : Nat
  time : Nat
deriving Repr, DecidableEq

/-- Modelled from the spec: the contents of a full `BlockHeader` — the
partial fields plus the post-execution application hash. -/
structure BlockHeaderContents where
  da_height : Nat
  height : Nat
  prev_root : Nat
  time : Nat
  application_hash : Nat
deriving Repr, DecidableEq

/-- Modelled from the spec: a pure hash of the header contents (an
injective pairing stands in for the cryptographic hash). -/
def BlockHeaderContents.hashValue (c : BlockHeaderContents) : Nat :=
  Nat.pair c.da_height
    (Nat.pair c.height (Nat.pair c.prev_root (Nat.pair c.time c.application_hash)))

/-- Modelled from the spec: a full `BlockHeader` is its contents plus the
cached identifier computed at generation time (never mutated afterwards). -/
structure BlockHeader where
  contents : BlockHeaderContents
  metadata_id : Nat
deriving Repr, DecidableEq

/-- Modelled from the spec: `BlockHeader::hash` recomputes the hash of the
header contents. -/
def BlockHeader.hash (h : BlockHeader) : Nat :=
  h.contents.hashValue

/-- Modelled from the spec: `BlockHeader::id` returns the cached identifier
stored at generation time. -/
def BlockHeader.id (h : BlockHeader) : Nat :=
  h.metadata_id

/-- Modelled from the spec: `PartialBlockHeader::generate` completes the
header with the post-execution `application_hash` and caches the hash of
the resulting contents as the identifier. -/
def PartialBlockHeader.generate (pbh : PartialBlockHeader)
    (application_hash : Nat) : BlockHeader :=
  let c : BlockHeaderContents :=
    { da_height := pbh.da_height
      height := pbh.height
      prev_root := pbh.prev_root
      time := pbh.time
      application_hash := application_hash }
  { contents := c, metadata_id := c.hashValue }

/-- Mirrors `Block::id(&self)` (src/crates/types/src/blockchain/block.rs):
returns `self.header.id()`. -/
def Block.id {Tx : Type} (b : Block BlockHeader Tx) : Nat :=
  b.header.id

/-! ## Client pagination argument conversion
(src/crates/client/src/client/schema.rs and schema/message.rs) -/

/-- Direction of a paginated query (mirrors `enum PageDirection`). -/
inductive PageDirection where
  | Forward
  | Backward
deriving Repr, DecidableEq

/-- Mirrors `struct PaginationRequest<T>`: cursor, number of results, and
direction. `results` is a `usize`, modelled as `Nat`. -/
structure PaginationRequest (T : Type) where
  cursor : Option T
  results : Nat
  direction : PageDirection

/-- Mirrors `struct ConnectionArgs`: generic graphql pagination query
arguments. `first`/`last` are `Option<i32>`, modelled as `Option Int`. -/
structure ConnectionArgs where
  after : Option String
  before : Option String
  first : Option Int
  last : Option Int
deriving Repr, DecidableEq

/-- Mirrors `struct OwnedMessagesConnectionArgs`: an owner filter plus the
same pagination arguments, with `A` the address type. -/
structure OwnedMessagesConnectionArgs (A : Type) where
  owner : Option A
  after : Option String
  before : Option String
  first : Option Int
  last : Option Int

/-- Rust `usize as i32`: truncate to the low 32 bits and reinterpret as a
two's-complement signed integer. -/
def usizeAsI32 (n : Nat) : Int :=
  (((n % 2 ^ 32 : Nat) : Int) + 2 ^ 31) % 2 ^ 32 - 2 ^ 31

/-- Mirrors `impl From<PaginationRequest<T>> for ConnectionArgs`:
Forward sets `after := cursor`, `first := Some(results as i32)`; Backward
sets `before := cursor`, `last := Some(results as i32)`; the other two
fields are `None` in each arm. `into` is the `T: Into<String>` coercion. -/
def ConnectionArgs.from {T : Type} (into : T → String)
    (req : PaginationRequest T) : ConnectionArgs :=
  match req.direction with
  | .Forward =>
    { after := req.cursor.map into
      before := none
      first := some (usizeAsI32 req.results)
      last := none }
  | .Backward =>
    { after := none
      before := req.cursor.map into
      first := none
      last := some (usizeAsI32 req.results) }

/-- Mirrors `impl From<(Option<Address>, PaginationRequest<String>)> for
OwnedMessagesConnectionArgs` (src/crates/client/src/client/schema/message.rs). -/
def OwnedMessagesConnectionArgs.from {A : Type} (owner : Option A)
    (req : PaginationRequest String) : OwnedMessagesConnectionArgs A :=
  match req.direction with
  | .Forward =>
    { owner := owner
      after := req.cursor
      before := none
      first := some (usizeAsI32 req.results)
      last := none }
  | .Backward =>
    { owner := owner
      after := none
      before := req.cursor
      first := none
      last := some (usizeAsI32 req.results) }

/-! ## Block producer validation pipeline

Modelled from the spec: the implementation of
`Producer::produce_and_execute_block` lives in
`crates/services/producer/src/block_producer.rs`, which is not under `src/`
(only its tests are). Per spec §4.3 the pipeline, in order: fails with
`GenesisBlock` when `target_height == 0`; looks up the block at
`target_height - 1` and fails with a "no previous block" error when absent;
fails with `InvalidDaFinalizationState{previous_block, best}` when the
relayer's best finalized height is strictly below the previous block's DA
height; otherwise invokes the executor, propagating executor errors
verbatim. Heights, DA heights, times and gas limits are machine integers in
the source, modelled as `Nat`. -/

/-- Modelled from the spec: what the producer reads from the previous
block — its recorded DA height. -/
structure PrevBlockInfo where
  da_height : Nat
deriving Repr, DecidableEq

/-- Modelled from the spec: the error taxonomy of the producer pipeline
(§4.3, §7), with executor errors of type `E` propagated verbatim. -/
inductive ProducerError (E : Type) where
  | GenesisBlock
  | NoPreviousBlock (height : Nat)
  | InvalidDaFinalizationState (previous_block : Nat) (best : Nat)
  | Executor (err : E)
deriving Repr, DecidableEq

/-- Modelled from the spec: `produce_and_execute_block(target_height,
target_time, gas_limit)`. `db` is the block database read fresh from the
port (height → previous-block info), `best_finalized_height` the relayer's
best finalized DA height, and `execute` the external executor invoked with
the target height, time and gas limit. -/
def produce_and_execute_block {E R : Type}
    (db : Nat → Option PrevBlockInfo) (best_finalized_height : Nat)
    (execute : Nat → Nat → Nat → Except E R)
    (target_height target_time gas_limit : Nat) :
    Except (ProducerError E) R :=
  if target_height = 0 then
    .error .GenesisBlock
  else
    match db (target_height - 1) with
    | none => .error (.NoPreviousBlock (target_height - 1))
    | some prev =>
      if best_finalized_height < prev.da_height then
        .error (.InvalidDaFinalizationState prev.da_height best_finalized_height)
      else
        match execute target_height target_time gas_limit with
        | .error e => .error (.Executor e)
        | .ok r => .ok r

/-! ## PoA scheduler task

Modelled from the spec: the PoA `Task` implementation lives in
`crates/services/consensus_module/poa/src/service.rs`, which is not under
`src/` (only `service_test.rs` is). Per spec §3/§4.2: the task holds the
trigger policy, the block gas limit, `last_block_time` and the last
produced height; `produce_next_block` targets `last height + 1`, invokes
the Producer port, forwards the skipped transaction ids (in reported
order) to the Pool port for removal, and hands the result to the Importer
port; `on_txpool_event` re-checks `pending_number()` before acting;
`manually_produce_block(start_time, n)` produces `n` consecutive blocks
through the same path. Port invocations are recorded as an explicit call
trace so that the claims about which ports are called, how often and with
which arguments can be stated. -/

/-- Block-production policy (mirrors `enum Trigger`); durations are
modelled as `Nat`. -/
inductive Trigger where
  | Never
  | Instant
  | Interval (block_time : Nat)
  | Hybrid (min_block_time : Nat) (max_tx_idle_time : Nat) (max_block_time : Nat)
deriving Repr, DecidableEq

/-- Transaction status events from the pool (mirrors `enum TxStatus`),
with `R` the squeeze-out reason type. -/
inductive TxStatus (R : Type) where
  | Submitted
  | Completed
  | SqueezedOut (reason : R)
deriving Repr, DecidableEq

/-- The produced block as the scheduler claims observe it: the header
fields relevant to commit observation (height and timestamp). -/
structure ProducedBlock where
  height : Nat
  time : Nat
deriving Repr, DecidableEq

/-- Modelled from the spec: the `ExecutionResult` part of the producer's
`UncommittedResult` — the block plus the skipped transactions, each paired
with its rejection reason (§3). The transaction status updates and the
storage transaction are carried opaquely by the real type and are not
consulted by the scheduler logic under claim, so they are omitted. -/
structure ExecutionResult (Blk Tx E : Type) where
  block : Blk
  skipped_transactions : List (Tx × E)

/-- A recorded invocation of one of the scheduler's ports. -/
inductive PortCall (TxId Blk : Type) where
  | produceAndExecute (height : Nat) (time : Nat) (gas_limit : Nat)
  | removeTxs (ids : List TxId)
  | commitResult (block : Blk)
deriving Repr, DecidableEq

/-- Modelled from the spec: the scheduler `Task` state and its port
handles. `producer` is the Producer port, `tx_id` the transaction
identifier function used when forwarding skipped transactions,
`txpool_pending_number` the pool's current pending count (re-checked on
every event), and `idle_timer_deadline` the Hybrid idle timer. -/
structure TaskModel (Tx TxId Blk E : Type) where
  trigger : Trigger
  block_gas_limit : Nat
  last_height : Nat
  last_block_time : Nat
  txpool_pending_number : Nat
  tx_id : Tx → TxId
  producer : Nat → Nat → Nat → Except E (ExecutionResult Blk Tx E)
  idle_timer_deadline : Option Nat

/-- Modelled from the spec: `produce_next_block` — computes the target
height `last height + 1`, invokes the Producer port with the given block
time and the configured gas limit, forwards the skipped transaction ids to
the Pool port for removal in the order they were reported, and hands the
block to the Importer port for commit. Returns the updated task and the
trace of port calls. -/
def produce_next_block {Tx TxId Blk E : Type} (task : TaskModel Tx TxId Blk E)
    (block_time : Nat) :
    Except E (TaskModel Tx TxId Blk E × List (PortCall TxId Blk)) :=
  let height := task.last_height + 1
  match task.producer height block_time task.block_gas_limit with
  | .error e => .error e
  | .ok res =>
    .ok ({ task with last_height := height, last_block_time := block_time },
      [.produceAndExecute height block_time task.block_gas_limit,
       .removeTxs (res.skipped_transactions.map (fun p => task.tx_id p.1)),
       .commitResult res.block])

/-- Modelled from the spec: `on_txpool_event(status)` — under `Instant`,
re-checks the real `pending_number()` and produces immediately only when it
is positive; under `Never`/`Interval` pool events are ignored; under
`Hybrid`, a `Submitted` event (re)starts the idle timer only if the pool is
non-empty, and empty-pool transitions never start a production timer.
`now` is the wall-clock time at which the event is handled. -/
def on_txpool_event {Tx TxId Blk E R : Type} (task : TaskModel Tx TxId Blk E)
    (status : TxStatus R) (now : Nat) :
    Except E (TaskModel Tx TxId Blk E × List (PortCall TxId Blk)) :=
  match task.trigger with
  | .Instant =>
    if task.txpool_pending_number > 0 then
      produce_next_block task now
    else
      .ok (task, [])
  | .Never | .Interval _ => .ok (task, [])
  | .Hybrid _ max_tx_idle_time _ =>
    match status with
    | .Submitted =>
      if task.txpool_pending_number > 0 then
        .ok ({ task with idle_timer_deadline := some (now + max_tx_idle_time) }, [])
      else
        .ok (task, [])
    | _ => .ok (task, [])

/-- Processes a sequence of pool-status events (each paired with its
arrival time) through `on_txpool_event`, accumulating the port-call
trace. -/
def on_txpool_events {Tx TxId Blk E R : Type} (task : TaskModel Tx TxId Blk E)
    (events : List (TxStatus R × Nat)) :
    Except E (TaskModel Tx TxId Blk E × List (PortCall TxId Blk)) :=
  match events with
  | [] => .ok (task, [])
  | (status, now) :: rest =>
    match on_txpool_event task status now with
    | .error e => .error e
    | .ok (task1, calls) =>
      match on_txpool_events task1 rest with
      | .error e => .error e
      | .ok (task2, calls1) => .ok (task2, calls ++ calls1)

/-- Modelled from the spec: the block time of the next manually produced
block given the previous one — `Interval` advances by `block_time`, the
other policies reuse the caller-supplied time (§4.2, P6 harness). -/
def next_manual_time (trigger : Trigger) (t : Nat) : Nat :=
  match trigger with
  | .Interval block_time => t + block_time
  | _ => t

/-- Modelled from the spec: the loop of `manually_produce_block` — produces
`n` consecutive blocks through `produce_next_block`, threading the block
time through `next_manual_time`. -/
def manually_produce_loop {Tx TxId Blk E : Type} (task : TaskModel Tx TxId Blk E)
    (block_time : Nat) (n : Nat) :
    Except E (TaskModel Tx TxId Blk E × List (PortCall TxId Blk)) :=
  match n with
  | 0 => .ok (task, [])
  | n + 1 =>
    match produce_next_block task block_time with
    | .error e => .error e
    | .ok (task1, calls) =>
      match manually_produce_loop task1 (next_manual_time task1.trigger block_time) n with
      | .error e => .error e
      | .ok (task2, calls1) => .ok (task2, calls ++ calls1)

/-- Modelled from the spec: `manually_produce_block(start_time, n)` —
produces `n` consecutive blocks at ascending heights; the first block uses
`start_time` when given (`now` otherwise), subsequent blocks follow the
policy's time progression; the same producer/importer path is used with no
invariant bypass. -/
def manually_produce_block {Tx TxId Blk E : Type} (task : TaskModel Tx TxId Blk E)
    (start_time : Option Nat) (n : Nat) (now : Nat) :
    Except E (TaskModel Tx TxId Blk E × List (PortCall TxId Blk)) :=
  manually_produce_loop task (start_time.getD now) n

/-- The `remove_txs` invocations of a port-call trace, each as its id
list. -/
def removeCalls {TxId Blk : Type} (calls : List (PortCall TxId Blk)) :
    List (List TxId) :=
  calls.filterMap (fun c =>
    match c with
    | .removeTxs ids => some ids
    | _ => none)

/-- The blocks handed to the Importer port by a port-call trace, in call
order. -/
def commitCalls {TxId Blk : Type} (calls : List (PortCall TxId Blk)) :
    List Blk :=
  calls.filterMap (fun c =>
    match c with
    | .commitResult b => some b
    | _ => none)

/-- The `produce_and_execute_block` invocations of a port-call trace. -/
def produceCalls {TxId Blk : Type} (calls : List (PortCall TxId Blk)) :
    List (Nat × Nat × Nat) :=
  calls.filterMap (fun c =>
    match c with
    | .produceAndExecute h t g => some (h, t, g)
    | _ => none)

/-! ## Concrete instances used to exercise the theorems -/

/-- A trivial executor that always succeeds, for concrete producer runs. -/
def demoExecute : Nat → Nat → Nat → Except Unit Unit :=
  fun _ _ _ => .ok ()

/-- A block database holding a single previous block at height 1 with
recorded DA height 100. -/
def prevDemoDb : Nat → Option PrevBlockInfo :=
  fun height => if height = 1 then some { da_height := 100 } else none

/-- An empty block database. -/
def emptyDb : Nat → Option PrevBlockInfo :=
  fun _ => none

/-- A concrete scheduler task whose producer reports two skipped
transactions with distinct ids. -/
def skippedDemoTask : TaskModel Nat Nat ProducedBlock Unit :=
  { trigger := .Instant
    block_gas_limit := 1000000
    last_height := 3
    last_block_time := 0
    txpool_pending_number := 2
    tx_id := fun tx => tx
    producer := fun h t _ =>
      .ok { block := { height := h, time := t }
            skipped_transactions := [(7, ()), (8, ())] }
    idle_timer_deadline := none }

/-- A concrete `Instant`-triggered scheduler task over an empty pool. -/
def emptyPoolTask : TaskModel Nat Nat ProducedBlock Unit :=
  { trigger := .Instant
    block_gas_limit := 1000000
    last_height := 1
    last_block_time := 0
    txpool_pending_number := 0
    tx_id := fun tx => tx
    producer := fun h t _ =>
      .ok { block := { height := h, time := t }
            skipped_transactions := [] }
    idle_timer_deadline := none }

/-- A concrete `Instant`-triggered scheduler task used for manual block
production, whose producer stamps the requested height and time into the
block it returns and skips nothing. -/
def manualDemoTask : TaskModel Nat Nat ProducedBlock Unit :=
  { trigger := .Instant
    block_gas_limit := 100000
    last_height := 5
    last_block_time := 0
    txpool_pending_number := 0
    tx_id := fun tx => tx
    producer := fun h t _ =>
      .ok { block := { height := h, time := t }
            skipped_transactions := [] }
    idle_timer_deadline := none }

/-! ## Theorems -/

/-- C2: for every target time `t` and gas limit `g`,
`produce_and_execute_block(0, t, g)` fails with the `GenesisBlock` error;
height zero is never produced by this path regardless of database or
relayer state. -/
theorem genesis_height_rejected {E R : Type}
    (db : Nat → Option PrevBlockInfo) (best : Nat)
    (execute : Nat → Nat → Nat → Except E R) (t g : Nat) :
    produce_and_execute_block db best execute 0 t g = .error .GenesisBlock :=
  rfl

/-- C3: for every target height `h > 0` such that no block exists at height
`h - 1` in the database, `produce_and_execute_block(h, t, g)` fails with
the no-previous-block error, for every target time and gas limit. -/
theorem missing_previous_block_fails {E R : Type}
    (db : Nat → Option PrevBlockInfo) (best : Nat)
    (execute : Nat → Nat → Nat → Except E R) (h t g : Nat)
    (hpos : 0 < h) (hdb : db (h - 1) = none) :
    produce_and_execute_block db best execute h t g =
      .error (.NoPreviousBlock (h - 1)) := by
  have h0 : h ≠ 0 := Nat.pos_iff_ne_zero.mp hpos
  simp [produce_and_execute_block, h0, hdb]

/-- Witness for C3 at target height 100 over an empty database. -/
theorem missing_previous_block_fails_witness :
    0 < 100 ∧ emptyDb (100 - 1) = none ∧
      produce_and_execute_block emptyDb 0 demoExecute 100 5 1000000 =
        .error (.NoPreviousBlock 99) :=
  ⟨by decide, rfl,
    missing_previous_block_fails emptyDb 0 demoExecute 100 5 1000000
      (by decide) rfl⟩

/-- C1: if the block stored at height `h - 1` records DA height `D` and the
relayer's best finalized height `best` is strictly less than `D`, then
`produce_and_execute_block(h, t, g)` fails with
`InvalidDaFinalizationState{previous_block := D, best}`, for every target
time and gas limit. -/
theorem da_finalization_regression_fails {E R : Type}
    (db : Nat → Option PrevBlockInfo) (best : Nat)
    (execute : Nat → Nat → Nat → Except E R) (h t g : Nat)
    (prev : PrevBlockInfo) (hpos : 0 < h) (hdb : db (h - 1) = some prev)
    (hlt : best < prev.da_height) :
    produce_and_execute_block db best execute h t g =
      .error (.InvalidDaFinalizationState prev.da_height best) := by
  have h0 : h ≠ 0 := Nat.pos_iff_ne_zero.mp hpos
  simp [produce_and_execute_block, h0, hdb, hlt]

/-- Witness for C1 at target height 2, previous DA height 100 and best
finalized height 99. -/
theorem da_finalization_regression_fails_witness :
    0 < 2 ∧ prevDemoDb (2 - 1) = some { da_height := 100 } ∧
      (99 : Nat) < PrevBlockInfo.da_height { da_height := 100 } ∧
      produce_and_execute_block prevDemoDb 99 demoExecute 2 5 1000000 =
        .error (.InvalidDaFinalizationState 100 99) :=
  ⟨by decide, rfl, by decide,
    da_finalization_regression_fails prevDemoDb 99 demoExecute 2 5 1000000
      { da_height := 100 } (by decide) rfl (by decide)⟩

/-- C6: for every block built via `Block::new` and consensus parameters,
compressing with `Block::compress` and then `CompressedBlock::uncompress`
with the original transaction list reproduces a block whose header is
identical and whose transaction identifiers list is identical. -/
theorem compress_uncompress_roundtrip {H PH Tx TxId MsgId Params : Type}
    (generate : PH → List Tx → List MsgId → H) (tx_id : Params → Tx → TxId)
    (params : Params) (pbh : PH) (txs : List Tx) (msg_ids : List MsgId) :
    (CompressedBlock.uncompress
        (Block.compress tx_id params (Block.new generate pbh txs msg_ids))
        (Block.new generate pbh txs msg_ids).transactions).header =
      (Block.new generate pbh txs msg_ids).header ∧
    (CompressedBlock.uncompress
        (Block.compress tx_id params (Block.new generate pbh txs msg_ids))
        (Block.new generate pbh txs msg_ids).transactions).transactions.map
        (tx_id params) =
      (Block.new generate pbh txs msg_ids).transactions.map (tx_id params) :=
  ⟨rfl, rfl⟩

/-- C9: `CompressedBlock::uncompress` performs no validation of its
argument — for every compressed block `c` and every transaction list
`txs`, the result has header `c.header` and transaction list exactly
`txs`. -/
theorem uncompress_adopts_transactions_verbatim {H Tx TxId : Type}
    (c : Block H TxId) (txs : List Tx) :
    (CompressedBlock.uncompress c txs).header = c.header ∧
      (CompressedBlock.uncompress c txs).transactions = txs :=
  ⟨rfl, rfl⟩

/-- C8: `Block::id()` returns the identifier of the block's header, and for
every block constructed via `Block::new` (and its compressed form, which
shares the header) that identifier equals the hash of the header —
`header.id() == hash(header)`. The embedding is pure, so a constructed
block is immutable and its identifier is fixed by the construction
inputs. -/
theorem block_id_equals_header_hash {Tx TxId MsgId Params : Type}
    (application_hash : List Tx → List MsgId → Nat)
    (tx_id : Params → Tx → TxId) (params : Params)
    (pbh : PartialBlockHeader) (txs : List Tx) (msg_ids : List MsgId) :
    Block.id (Block.new (fun p ts ms => p.generate (application_hash ts ms))
        pbh txs msg_ids) =
      BlockHeader.hash (Block.new
        (fun p ts ms => p.generate (application_hash ts ms))
        pbh txs msg_ids).header ∧
    Block.id (Block.compress tx_id params
        (Block.new (fun p ts ms => p.generate (application_hash ts ms))
          pbh txs msg_ids)) =
      BlockHeader.hash (Block.compress tx_id params
        (Block.new (fun p ts ms => p.generate (application_hash ts ms))
          pbh txs msg_ids)).header :=
  ⟨rfl, rfl⟩

/-- C10: the pagination argument conversions set exactly one of
`first`/`last` and never both `after` and `before` — Forward yields
`first = some(results as i32)` with `after = cursor` and `before`/`last`
none; Backward yields `last = some(results as i32)` with `before = cursor`
and `after`/`first` none — for both `ConnectionArgs` and
`OwnedMessagesConnectionArgs`. -/
theorem pagination_args_set_exactly_one_bound {T A : Type} (into : T → String)
    (owner : Option A) (req : PaginationRequest T)
    (reqS : PaginationRequest String) :
    (ConnectionArgs.from into req).first.isSome =
        !(ConnectionArgs.from into req).last.isSome ∧
    ((ConnectionArgs.from into req).after.isSome &&
        (ConnectionArgs.from into req).before.isSome) = false ∧
    ConnectionArgs.from into
        { cursor := req.cursor, results := req.results, direction := .Forward } =
      { after := req.cursor.map into, before := none
        first := some (usizeAsI32 req.results), last := none } ∧
    ConnectionArgs.from into
        { cursor := req.cursor, results := req.results, direction := .Backward } =
      { after := none, before := req.cursor.map into
        first := none, last := some (usizeAsI32 req.results) } ∧
    (OwnedMessagesConnectionArgs.from owner reqS).first.isSome =
        !(OwnedMessagesConnectionArgs.from owner reqS).last.isSome ∧
    ((OwnedMessagesConnectionArgs.from owner reqS).after.isSome &&
        (OwnedMessagesConnectionArgs.from owner reqS).before.isSome) = false ∧
    OwnedMessagesConnectionArgs.from owner
        { cursor := reqS.cursor, results := reqS.results, direction := .Forward } =
      { owner := owner, after := reqS.cursor, before := none
        first := some (usizeAsI32 reqS.results), last := none } ∧
    OwnedMessagesConnectionArgs.from owner
        { cursor := reqS.cursor, results := reqS.results, direction := .Backward } =
      { owner := owner, after := none, before := reqS.cursor
        first := none, last := some (usizeAsI32 reqS.results) } := by
  obtain ⟨c, r, d⟩ := req
  obtain ⟨cS, rS, dS⟩ := reqS
  cases d <;> cases dS <;>
    simp [ConnectionArgs.from, OwnedMessagesConnectionArgs.from]

/-- C4: if the producer reports skipped transactions with distinct ids
during `produce_next_block`, then `TxPool::remove_txs` is called exactly
once, with exactly those transaction ids, in the order the skipped
transactions were reported. -/
theorem skipped_txs_removed_once_in_order {Tx TxId Blk E : Type}
    (task : TaskModel Tx TxId Blk E) (now : Nat)
    (res : ExecutionResult Blk Tx E)
    (hprod : task.producer (task.last_height + 1) now task.block_gas_limit =
      .ok res)
    (hnodup : (res.skipped_transactions.map (fun p => task.tx_id p.1)).Nodup) :
    ∃ task1 calls, produce_next_block task now = .ok (task1, calls) ∧
      removeCalls calls =
        [res.skipped_transactions.map (fun p => task.tx_id p.1)] := by
  refine ⟨{ task with last_height := task.last_height + 1,
                      last_block_time := now },
    [.produceAndExecute (task.last_height + 1) now task.block_gas_limit,
     .removeTxs (res.skipped_transactions.map (fun p => task.tx_id p.1)),
     .commitResult res.block], ?_, ?_⟩
  · simp [produce_next_block, hprod]
  · simp [removeCalls]

/-- Witness for C4: a concrete task whose producer reports the two skipped
transactions 7 and 8. -/
theorem skipped_txs_removed_once_in_order_witness :
    skippedDemoTask.producer (skippedDemoTask.last_height + 1) 5
        skippedDemoTask.block_gas_limit =
      .ok ({ block := { height := 4, time := 5 }
             skipped_transactions := [(7, ()), (8, ())] } :
        ExecutionResult ProducedBlock Nat Unit) ∧
    (([((7 : Nat), ()), (8, ())]).map
        (fun p => skippedDemoTask.tx_id (Prod.fst p))).Nodup ∧
    ∃ task1 calls, produce_next_block skippedDemoTask 5 = .ok (task1, calls) ∧
      removeCalls calls =
        [(ExecutionResult.skipped_transactions
            ({ block := { height := 4, time := 5 }
               skipped_transactions := [(7, ()), (8, ())] } :
              ExecutionResult ProducedBlock Nat Unit)).map
          (fun p => skippedDemoTask.tx_id p.1)] :=
  ⟨rfl, by decide,
    skipped_txs_removed_once_in_order skippedDemoTask 5
      ({ block := { height := 4, time := 5 }
         skipped_transactions := [(7, ()), (8, ())] } :
        ExecutionResult ProducedBlock Nat Unit)
      rfl (by decide)⟩

/-- C5: under an `Instant` or `Hybrid` trigger, if `pending_number()`
returns 0, processing any sequence of `Submitted`/`Completed`/`SqueezedOut`
pool-status events through `on_txpool_event` leaves the task unchanged and
makes no port call at all — in particular no `produce_and_execute_block`
invocation and no importer commit. -/
theorem empty_pool_produces_no_blocks {Tx TxId Blk E R : Type}
    (task : TaskModel Tx TxId Blk E) (events : List (TxStatus R × Nat))
    (htrigger : task.trigger = .Instant ∨
      ∃ mn idle mx, task.trigger = .Hybrid mn idle mx)
    (hempty : task.txpool_pending_number = 0) :
    on_txpool_events task events = .ok (task, []) := by
  induction events with
  | nil => rfl
  | cons ev rest ih =>
    obtain ⟨status, now⟩ := ev
    have hstep : on_txpool_event task status now = .ok (task, []) := by
      rcases htrigger with h | ⟨mn, idle, mx, h⟩
      · simp [on_txpool_event, h, hempty]
      · cases status <;> simp [on_txpool_event, h, hempty]
    simp [on_txpool_events, hstep, ih]

/-- Witness for C5: an `Instant`-triggered task over an empty pool receives
a `Submitted`, a `Completed` and a `SqueezedOut` event and makes no port
call. -/
theorem empty_pool_produces_no_blocks_witness :
    (emptyPoolTask.trigger = .Instant ∨
      ∃ mn idle mx, emptyPoolTask.trigger = .Hybrid mn idle mx) ∧
    emptyPoolTask.txpool_pending_number = 0 ∧
    on_txpool_events emptyPoolTask
        [(TxStatus.Submitted, 1), (TxStatus.Completed, 2),
         ((TxStatus.SqueezedOut ()), 3)] =
      .ok (emptyPoolTask, []) :=
  ⟨Or.inl rfl, rfl,
    empty_pool_produces_no_blocks emptyPoolTask
      [(TxStatus.Submitted, 1), (TxStatus.Completed, 2),
       ((TxStatus.SqueezedOut ()), 3)]
      (Or.inl rfl) rfl⟩

/-- Computing the committed blocks of a trace that starts with one
produce/remove/commit triple. -/
theorem commitCalls_step {TxId Blk : Type} (h t g : Nat) (ids : List TxId)
    (b : Blk) (l : List (PortCall TxId Blk)) :
    commitCalls (.produceAndExecute h t g :: .removeTxs ids ::
      .commitResult b :: l) = b :: commitCalls l := by
  simp [commitCalls]

/-- The manual production loop over an `Instant` trigger with a producer
that stamps the requested height and time into the returned block commits
one block per iteration, at consecutive heights and all at the starting
time. -/
theorem manually_produce_loop_instant {Tx TxId E : Type}
    (t0 : Nat) (n : Nat) (task : TaskModel Tx TxId ProducedBlock E)
    (htrigger : task.trigger = .Instant)
    (hproducer : ∀ h t g, ∃ skipped,
      task.producer h t g = .ok { block := { height := h, time := t }
                                  skipped_transactions := skipped }) :
    ∃ task1 calls, manually_produce_loop task t0 n = .ok (task1, calls) ∧
      (commitCalls calls).map ProducedBlock.height =
        List.range' (task.last_height + 1) n ∧
      (commitCalls calls).map ProducedBlock.time = List.replicate n t0 ∧
      task1.last_height = task.last_height + n := by
  induction n generalizing task with
  | zero => exact ⟨task, [], rfl, rfl, rfl, rfl⟩
  | succ n ih =>
    obtain ⟨skipped, hres⟩ :=
      hproducer (task.last_height + 1) t0 task.block_gas_limit
    obtain ⟨task2, calls1, h1, h2, h3, h4⟩ :=
      ih { task with last_height := task.last_height + 1,
                     last_block_time := t0 }
        htrigger hproducer
    have h1' : manually_produce_loop
        { task with last_height := task.last_height + 1,
                    last_block_time := t0 } t0 n =
        Except.ok (task2, calls1) := h1
    have h2' : (commitCalls calls1).map ProducedBlock.height =
        List.range' (task.last_height + 1 + 1) n := h2
    have h4' : task2.last_height = task.last_height + 1 + n := h4
    have hnext : next_manual_time task.trigger t0 = t0 := by
      rw [htrigger]
      rfl
    refine ⟨task2,
      .produceAndExecute (task.last_height + 1) t0 task.block_gas_limit ::
        .removeTxs (skipped.map (fun p => task.tx_id p.1)) ::
        .commitResult { height := task.last_height + 1, time := t0 } :: calls1,
      ?_, ?_, ?_, ?_⟩
    · simp [manually_produce_loop, produce_next_block, hres, hnext, h1']
    · rw [commitCalls_step, List.map_cons, h2', List.range'_succ]
    · rw [commitCalls_step, List.map_cons, h3, List.replicate_succ]
    · omega

/-- C7: `manually_produce_block(some t0, n)` on an `Instant`-triggered
scheduler with no pending transactions, whose producer succeeds and stamps
the requested height and time into each block, commits exactly `n` blocks
at consecutive ascending heights, each committed block's timestamp equal
to the caller-supplied time `t0`. -/
theorem manual_production_commits_n_blocks {Tx TxId E : Type}
    (task : TaskModel Tx TxId ProducedBlock E) (t0 n now : Nat)
    (htrigger : task.trigger = .Instant)
    (hempty : task.txpool_pending_number = 0)
    (hproducer : ∀ h t g, ∃ skipped,
      task.producer h t g = .ok { block := { height := h, time := t }
                                  skipped_transactions := skipped }) :
    ∃ task1 calls,
      manually_produce_block task (some t0) n now = .ok (task1, calls) ∧
      (commitCalls calls).length = n ∧
      (commitCalls calls).map ProducedBlock.height =
        List.range' (task.last_height + 1) n ∧
      (commitCalls calls).map ProducedBlock.time = List.replicate n t0 := by
  obtain ⟨task1, calls, h1, h2, h3, h4⟩ :=
    manually_produce_loop_instant t0 n task htrigger hproducer
  refine ⟨task1, calls, h1, ?_, h2, h3⟩
  have := congrArg List.length h2
  simpa [List.length_range'] using this

/-- Witness for C7: three blocks manually produced at time 42 on a concrete
`Instant` task with last height 5 commit blocks at heights 6, 7, 8, all
timestamped 42. -/
theorem manual_production_commits_n_blocks_witness :
    manualDemoTask.trigger = .Instant ∧
    manualDemoTask.txpool_pending_number = 0 ∧
    ∃ task1 calls,
      manually_produce_block manualDemoTask (some 42) 3 0 =
        .ok (task1, calls) ∧
      (commitCalls calls).length = 3 ∧
      (commitCalls calls).map ProducedBlock.height =
        List.range' (manualDemoTask.last_height + 1) 3 ∧
      (commitCalls calls).map ProducedBlock.time = List.replicate 3 42 :=
  ⟨rfl, rfl,
    manual_production_commits_n_blocks manualDemoTask 42 3 0 rfl rfl
      (fun h t g => ⟨[], rfl⟩)⟩

end FuelCore
